import Mathlib

/-!
Verification of the crowdShip match/compensation pipeline
(`src/scripts/match_predict.py`).

Modelling conventions:
* Python floats are modelled as exact rationals (`ℚ`).
* A latitude/longitude point is a pair of rationals.
* The external geodesic-distance library (`geopy.distance.geodesic(..).km`)
  is an opaque collaborator; every definition that needs it is parametrised
  by a distance function `geo : Point → Point → ℚ`.
* An "HH:MM" time string is represented in parsed form as an `HHMM`
  record (hours, minutes); `time_to_minutes` is the translation of the
  Python `time_to_minutes` on that parsed form.
* `min(route, key=...)` in Python keeps the first element attaining the
  minimal key; `minBy` below reproduces exactly that left-to-right scan.
* Python `min()` on an empty sequence raises; functions that reach that
  call return `Option`/`Except` values, `none`/`.error` on the raising
  input, matching the exception channel.
* `round(x, 2)` is modelled as `round2` (rounding `x*100` to an integer);
  the half-way tie direction (Python rounds half to even on floats) is
  immaterial to every statement below.
* `json.loads`, `joblib.load`/`joblib.dump`, `model.predict_proba` and
  `Pipeline.fit` are external fallible collaborators; they are modelled
  as `Except String`-valued fields of an environment record, so that the
  try/except boundary of `predict_match` / `train_model` quantifies over
  every possible outcome of those steps.
-/

abbrev Point : Type := ℚ × ℚ

abbrev Geo : Type := Point → Point → ℚ

/-- Parsed form of an "HH:MM" wall-clock string. -/
structure HHMM where
  hours : ℕ
  minutes : ℕ
  deriving DecidableEq

/-- `time_to_minutes`: convert (parsed) time string to minutes since midnight. -/
def time_to_minutes (t : HHMM) : ℤ :=
  (t.hours : ℤ) * 60 + (t.minutes : ℤ)

/-- `calculate_window_overlap`: overlap between two time windows as a ratio,
normalised by the second window. -/
def calculate_window_overlap (window1_start window1_end window2_start window2_end : HHMM) : ℚ :=
  let w1_start := time_to_minutes window1_start
  let w1_end := time_to_minutes window1_end
  let w2_start := time_to_minutes window2_start
  let w2_end := time_to_minutes window2_end
  let overlap_start := max w1_start w2_start
  let overlap_end := min w1_end w2_end
  if overlap_end ≤ overlap_start then 0
  else
    let overlap_duration := overlap_end - overlap_start
    let window2_duration := w2_end - w2_start
    (overlap_duration : ℚ) / (window2_duration : ℚ)

/-- Left-to-right scan keeping the first element with the minimal key:
the behaviour of Python `min(seq, key=f)` on `b :: l`. -/
def minBy (f : Point → ℚ) : Point → List Point → Point
  | best, [] => best
  | best, q :: rest => minBy f (if f q < f best then q else best) rest

/-- Nearest route point to `target`; the route is `p :: rest`. -/
def nearestPoint (geo : Geo) (target : Point) (p : Point) (rest : List Point) : Point :=
  minBy (fun q => geo q target) p rest

structure RouteDeviation where
  distance : ℚ
  time : ℚ
  deriving DecidableEq

/-- `calculate_route_deviation`: route deviation distance and time.
`none` on an empty route (Python `min()` raises there). -/
def calculate_route_deviation (geo : Geo) (route : List Point)
    (pickup delivery : Point) : Option RouteDeviation :=
  match route with
  | [] => none
  | p :: rest =>
    let nearest_to_pickup := nearestPoint geo pickup p rest
    let nearest_to_delivery := nearestPoint geo delivery p rest
    let pickup_deviation := geo nearest_to_pickup pickup
    let delivery_deviation := geo nearest_to_delivery delivery
    let time_deviation := (pickup_deviation + delivery_deviation) / 30 * 60
    some { distance := pickup_deviation + delivery_deviation, time := time_deviation }

structure VehicleCapacity where
  length : ℚ
  width : ℚ
  height : ℚ
  weightLimit : ℚ
  deriving DecidableEq

structure Dimensions where
  length : ℚ
  width : ℚ
  height : ℚ
  weight : ℚ
  deriving DecidableEq

/-- `evaluate_size_compatibility`: dimensional fit plus volumetric efficiency. -/
def evaluate_size_compatibility (vehicle_capacity : VehicleCapacity)
    (package_dimensions : Dimensions) : ℚ :=
  let vehicle_length := vehicle_capacity.length
  let vehicle_width := vehicle_capacity.width
  let vehicle_height := vehicle_capacity.height
  let vehicle_weight_limit := vehicle_capacity.weightLimit
  let package_length := package_dimensions.length
  let package_width := package_dimensions.width
  let package_height := package_dimensions.height
  let package_weight := package_dimensions.weight
  if package_length ≤ vehicle_length ∧ package_width ≤ vehicle_width ∧
      package_height ≤ vehicle_height ∧ package_weight ≤ vehicle_weight_limit then
    let volume_frac :=
      (package_length * package_width * package_height) /
        (vehicle_length * vehicle_width * vehicle_height)
    let weight_frac := package_weight / vehicle_weight_limit
    let efficiency_score := 1 - |(0.3 : ℚ) - max volume_frac weight_frac|
    max 0.1 efficiency_score
  else 0

structure Schedule where
  startTime : HHMM
  endTime : HHMM
  deriving DecidableEq

/-- `calculate_time_compatibility`: alignment of the carrier schedule with
both package windows. -/
def calculate_time_compatibility (carrier_schedule : Schedule)
    (pickup_window delivery_window : HHMM × HHMM) : ℚ :=
  let carrier_start := carrier_schedule.startTime
  let carrier_end := carrier_schedule.endTime
  let pickup_compatibility :=
    calculate_window_overlap carrier_start carrier_end pickup_window.1 pickup_window.2
  let delivery_compatibility :=
    calculate_window_overlap carrier_start carrier_end delivery_window.1 delivery_window.2
  min pickup_compatibility delivery_compatibility

structure Package where
  id : String
  pickupCoordinates : Point
  deliveryCoordinates : Point
  pickupWindow : HHMM × HHMM
  deliveryWindow : HHMM × HHMM
  dimensions : Dimensions
  urgency : Option String
  deriving DecidableEq

structure Carrier where
  id : String
  routeCoordinates : List Point
  schedule : Schedule
  vehicleCapacity : VehicleCapacity
  rating : Option ℚ
  onTimeRate : Option ℚ
  completedDeliveries : Option (List String)
  deriving DecidableEq

/-- `extract_features`: the 7-component feature vector.
`none` when the route is empty (the nested `min()` raises). -/
def extract_features (geo : Geo) (package : Package) (carrier : Carrier) :
    Option (List ℚ) :=
  match calculate_route_deviation geo carrier.routeCoordinates
      package.pickupCoordinates package.deliveryCoordinates with
  | none => none
  | some route_deviation =>
    let time_flexibility :=
      calculate_time_compatibility carrier.schedule package.pickupWindow package.deliveryWindow
    let size_compatibility :=
      evaluate_size_compatibility carrier.vehicleCapacity package.dimensions
    let carrier_rating := carrier.rating.getD 0
    let carrier_reliability := carrier.onTimeRate.getD 0
    let carrier_experience := (carrier.completedDeliveries.getD []).length
    some [route_deviation.distance, route_deviation.time, time_flexibility,
      size_compatibility, carrier_rating, carrier_reliability, (carrier_experience : ℚ)]

/-- `round(x, 2)`: round to two decimal places. -/
def round2 (x : ℚ) : ℚ := ((round (x * 100) : ℤ) : ℚ) / 100

/-- `calculate_compensation`: deterministic pricing formula.
`none` when the route is empty (the deviation computation raises). -/
def calculate_compensation (geo : Geo) (package : Package) (carrier : Carrier) :
    Option ℚ :=
  match calculate_route_deviation geo carrier.routeCoordinates
      package.pickupCoordinates package.deliveryCoordinates with
  | none => none
  | some deviation =>
    let base_rate : ℚ := 50
    let deviation_compensation := deviation.distance * 10
    let weight_factor := package.dimensions.weight * 5
    let urgency_premium : ℚ :=
      if package.urgency = some "high" then 100
      else if package.urgency = some "medium" then 50
      else 0
    some (round2 (base_rate + deviation_compensation + weight_factor + urgency_premium))

/-- JSON values, for the shape of the entry-point outputs. -/
inductive Json where
  | str : String → Json
  | num : ℚ → Json
  | bool : Bool → Json
  | arr : List Json → Json
  | obj : List (String × Json) → Json

/-- The `{"error": message}` object produced by the except branches. -/
def errJson (e : String) : Json := Json.obj [("error", Json.str e)]

/-- The MatchResult object assembled by `predict_match`. -/
def mkMatchResult (carrierId packageId : String) (matchScore compensation : ℚ)
    (rd : RouteDeviation) : Json :=
  Json.obj [("carrierId", Json.str carrierId), ("packageId", Json.str packageId),
    ("matchScore", Json.num matchScore), ("compensation", Json.num compensation),
    ("routeDeviation", Json.obj [("distance", Json.num rd.distance),
      ("time", Json.num rd.time)])]

/-- The success object produced by `train_model`. -/
def trainSuccessJson : Json :=
  Json.obj [("success", Json.bool true),
    ("message", Json.str "Model trained successfully")]

/-- Lift the exception channel of an `Option`-valued step into `Except`. -/
def ofOption {α : Type} (o : Option α) (msg : String) : Except String α :=
  match o with
  | some a => Except.ok a
  | none => Except.error msg

/-- A loaded model: `predict_proba(...)[0][1]` on a feature vector,
fallible (shape mismatch etc.). -/
abbrev Model : Type := List ℚ → Except String ℚ

/-- Outcomes of the external fallible steps of `predict_match`:
`json.loads` on the two records and `joblib.load` on the model path. -/
structure PredictEnv where
  parsePackage : Except String Package
  parseCarrier : Except String Carrier
  loadModel : Except String Model

/-- The body of `predict_match`, inside the try block. -/
def predict_body (geo : Geo) (env : PredictEnv) : Except String Json := do
  let package ← env.parsePackage
  let carrier ← env.parseCarrier
  let model ← env.loadModel
  let features ← ofOption (extract_features geo package carrier)
    "min() arg is an empty sequence"
  let match_score ← model features
  let compensation ← ofOption (calculate_compensation geo package carrier)
    "min() arg is an empty sequence"
  let route_deviation ← ofOption (calculate_route_deviation geo carrier.routeCoordinates
      package.pickupCoordinates package.deliveryCoordinates)
    "min() arg is an empty sequence"
  return mkMatchResult carrier.id package.id match_score compensation route_deviation

/-- `predict_match`: the try/except boundary around `predict_body`. -/
def predict_match (geo : Geo) (env : PredictEnv) : Json :=
  match predict_body geo env with
  | Except.ok j => j
  | Except.error e => errJson e

structure TrainingExample where
  package : Package
  carrier : Carrier
  success : Bool

/-- Outcomes of the external fallible steps of `train_model`: reading and
parsing the training file, `Pipeline.fit`, and `joblib.dump`. -/
structure TrainEnv where
  loadTrainingData : Except String (List TrainingExample)
  fit : List (List ℚ) → List Bool → Except String Model
  save : Model → Except String Unit

/-- The body of `train_model`, inside the try block. -/
def train_body (geo : Geo) (env : TrainEnv) : Except String Json := do
  let training_data ← env.loadTrainingData
  let X ← training_data.mapM
    (fun m => ofOption (extract_features geo m.package m.carrier)
      "min() arg is an empty sequence")
  let y := training_data.map (fun m => m.success)
  let model ← env.fit X y
  let _ ← env.save model
  return trainSuccessJson

/-- `train_model`: the try/except boundary around `train_body`. -/
def train_model (geo : Geo) (env : TrainEnv) : Json :=
  match train_body geo env with
  | Except.ok j => j
  | Except.error e => errJson e

/-- A JSON value of the error shape `{"error": message}`. -/
def isErrorJson (j : Json) : Prop := ∃ e, j = errJson e

/-- A JSON value of the MatchResult shape. -/
def isMatchResultJson (j : Json) : Prop :=
  ∃ cid pid s c rd, j = mkMatchResult cid pid s c rd

/-- Minimum of `geo · t` over the route `p :: rest` (spec-side formulation
of the nearest-point distance). -/
def minDistTo (geo : Geo) (t : Point) (p : Point) (rest : List Point) : ℚ :=
  (rest.map (fun q => geo q t)).foldl min (geo p t)

/-- Sample distance function for concrete witnesses: distance 0 to the point
(1,1), distance 5 to every other point. -/
def geoC1 : Geo := fun _ t => if t = ((1 : ℚ), (1 : ℚ)) then 0 else 5

/-- Sample package for concrete witnesses: weight 10, urgency high. -/
def packageC1 : Package :=
  { id := "pkg-1",
    pickupCoordinates := ((0 : ℚ), (0 : ℚ)),
    deliveryCoordinates := ((1 : ℚ), (1 : ℚ)),
    pickupWindow := (⟨9, 0⟩, ⟨10, 0⟩),
    deliveryWindow := (⟨10, 0⟩, ⟨12, 0⟩),
    dimensions := { length := 1, width := 1, height := 1, weight := 10 },
    urgency := some "high" }

/-- Sample carrier for concrete witnesses. -/
def carrierC1 : Carrier :=
  { id := "car-1",
    routeCoordinates := [((0 : ℚ), (0 : ℚ))],
    schedule := ⟨⟨8, 0⟩, ⟨18, 0⟩⟩,
    vehicleCapacity := { length := 2, width := 2, height := 2, weightLimit := 20 },
    rating := some 4,
    onTimeRate := some 1,
    completedDeliveries := some ["d-1", "d-2"] }

/-- A second sample carrier: same route as `carrierC1` but different rating,
on-time rate, schedule, vehicle capacity and history. -/
def carrierC9 : Carrier :=
  { id := "car-2",
    routeCoordinates := [((0 : ℚ), (0 : ℚ))],
    schedule := ⟨⟨0, 0⟩, ⟨23, 59⟩⟩,
    vehicleCapacity := { length := 3, width := 3, height := 3, weightLimit := 100 },
    rating := none,
    onTimeRate := none,
    completedDeliveries := none }

lemma find?_cons_pos {p : Point → Bool} {a : Point} {l : List Point} (h : p a = true) :
    (a :: l).find? p = some a := by
  simp [List.find?, h]

lemma find?_cons_neg {p : Point → Bool} {a : Point} {l : List Point} (h : p a = false) :
    (a :: l).find? p = l.find? p := by
  simp [List.find?, h]

lemma foldl_min_le_init (a : ℚ) (l : List ℚ) : l.foldl min a ≤ a := by
  induction l generalizing a with
  | nil => exact le_refl a
  | cons x xs ih => exact (ih (min a x)).trans (min_le_left a x)

/-- Claim C5: overlap is 0 when the clipped interval is empty (in particular
when the windows are disjoint), and the clipped length over the second
window's duration otherwise. -/
theorem claim_C5_window_overlap (sa ea sb eb : HHMM)
    (hB : 0 < time_to_minutes eb - time_to_minutes sb) :
    (min (time_to_minutes ea) (time_to_minutes eb) ≤
        max (time_to_minutes sa) (time_to_minutes sb) →
      calculate_window_overlap sa ea sb eb = 0)
    ∧ (Set.Icc (time_to_minutes sa) (time_to_minutes ea) ∩
        Set.Icc (time_to_minutes sb) (time_to_minutes eb) = ∅ →
      calculate_window_overlap sa ea sb eb = 0)
    ∧ (max (time_to_minutes sa) (time_to_minutes sb) <
        min (time_to_minutes ea) (time_to_minutes eb) →
      calculate_window_overlap sa ea sb eb =
        ((min (time_to_minutes ea) (time_to_minutes eb) -
          max (time_to_minutes sa) (time_to_minutes sb) : ℤ) : ℚ) /
        ((time_to_minutes eb - time_to_minutes sb : ℤ) : ℚ)) := by
  have hempty : Set.Icc (time_to_minutes sa) (time_to_minutes ea) ∩
      Set.Icc (time_to_minutes sb) (time_to_minutes eb) = ∅ →
      min (time_to_minutes ea) (time_to_minutes eb) ≤
        max (time_to_minutes sa) (time_to_minutes sb) := by
    intro hdisj
    by_contra hlt
    push_neg at hlt
    have hmem : max (time_to_minutes sa) (time_to_minutes sb) ∈
        Set.Icc (time_to_minutes sa) (time_to_minutes ea) ∩
        Set.Icc (time_to_minutes sb) (time_to_minutes eb) := by
      refine ⟨⟨le_max_left _ _, ?_⟩, ⟨le_max_right _ _, ?_⟩⟩
      · exact hlt.le.trans (min_le_left _ _)
      · exact hlt.le.trans (min_le_right _ _)
    rw [hdisj] at hmem
    exact hmem
  refine ⟨?_, ?_, ?_⟩
  · intro h
    simp only [calculate_window_overlap]
    rw [if_pos h]
  · intro h
    simp only [calculate_window_overlap]
    rw [if_pos (hempty h)]
  · intro h
    simp only [calculate_window_overlap]
    rw [if_neg (not_le.mpr h)]

/-- Witness for claim C5 at a concrete pair of windows. -/
theorem claim_C5_window_overlap_witness :
    (0 < time_to_minutes ⟨11, 0⟩ - time_to_minutes ⟨9, 0⟩) ∧
    calculate_window_overlap ⟨9, 0⟩ ⟨10, 0⟩ ⟨9, 0⟩ ⟨11, 0⟩ =
      ((min (time_to_minutes ⟨10, 0⟩) (time_to_minutes ⟨11, 0⟩) -
        max (time_to_minutes ⟨9, 0⟩) (time_to_minutes ⟨9, 0⟩) : ℤ) : ℚ) /
      ((time_to_minutes ⟨11, 0⟩ - time_to_minutes ⟨9, 0⟩ : ℤ) : ℚ) :=
  ⟨by decide,
    (claim_C5_window_overlap ⟨9, 0⟩ ⟨10, 0⟩ ⟨9, 0⟩ ⟨11, 0⟩ (by decide)).2.2 (by decide)⟩

/-- Claim C6: time compatibility is the minimum of the two window-overlap
scores against the carrier schedule. -/
theorem claim_C6_time_compatibility (sched : Schedule) (pw dw : HHMM × HHMM)
    (hpw : 0 < time_to_minutes pw.2 - time_to_minutes pw.1)
    (hdw : 0 < time_to_minutes dw.2 - time_to_minutes dw.1) :
    calculate_time_compatibility sched pw dw =
      min (calculate_window_overlap sched.startTime sched.endTime pw.1 pw.2)
        (calculate_window_overlap sched.startTime sched.endTime dw.1 dw.2) := rfl

/-- Witness for claim C6 at a concrete schedule and windows. -/
theorem claim_C6_time_compatibility_witness :
    calculate_time_compatibility ⟨⟨8, 0⟩, ⟨18, 0⟩⟩ (⟨9, 0⟩, ⟨10, 0⟩) (⟨10, 0⟩, ⟨12, 0⟩) =
      min (calculate_window_overlap ⟨8, 0⟩ ⟨18, 0⟩ ⟨9, 0⟩ ⟨10, 0⟩)
        (calculate_window_overlap ⟨8, 0⟩ ⟨18, 0⟩ ⟨10, 0⟩ ⟨12, 0⟩) :=
  claim_C6_time_compatibility ⟨⟨8, 0⟩, ⟨18, 0⟩⟩ (⟨9, 0⟩, ⟨10, 0⟩) (⟨10, 0⟩, ⟨12, 0⟩)
    (by decide) (by decide)

/-- Claim C8: window overlap is asymmetric — two windows of different
durations on which the two orders of application disagree. -/
theorem claim_C8_overlap_asymmetric :
    (time_to_minutes ⟨10, 0⟩ - time_to_minutes ⟨9, 0⟩ ≠
      time_to_minutes ⟨11, 0⟩ - time_to_minutes ⟨9, 0⟩) ∧
    calculate_window_overlap ⟨9, 0⟩ ⟨10, 0⟩ ⟨9, 0⟩ ⟨11, 0⟩ ≠
      calculate_window_overlap ⟨9, 0⟩ ⟨11, 0⟩ ⟨9, 0⟩ ⟨10, 0⟩ := by
  constructor
  · decide
  · norm_num [calculate_window_overlap, time_to_minutes]

/-- Claim C10: with a positive second-window duration the overlap ratio lies
in [0, 1], hence time compatibility lies in [0, 1] as well. -/
theorem claim_C10_scores_in_unit_interval :
    (∀ sa ea sb eb : HHMM, 0 < time_to_minutes eb - time_to_minutes sb →
      0 ≤ calculate_window_overlap sa ea sb eb ∧
        calculate_window_overlap sa ea sb eb ≤ 1)
    ∧ (∀ (sched : Schedule) (pw dw : HHMM × HHMM),
      0 < time_to_minutes pw.2 - time_to_minutes pw.1 →
      0 < time_to_minutes dw.2 - time_to_minutes dw.1 →
      0 ≤ calculate_time_compatibility sched pw dw ∧
        calculate_time_compatibility sched pw dw ≤ 1) := by
  have key : ∀ sa ea sb eb : HHMM, 0 < time_to_minutes eb - time_to_minutes sb →
      0 ≤ calculate_window_overlap sa ea sb eb ∧
        calculate_window_overlap sa ea sb eb ≤ 1 := by
    intro sa ea sb eb hpos
    simp only [calculate_window_overlap]
    by_cases h : min (time_to_minutes ea) (time_to_minutes eb) ≤
        max (time_to_minutes sa) (time_to_minutes sb)
    · rw [if_pos h]
      exact ⟨le_refl 0, zero_le_one⟩
    · rw [if_neg h]
      push_neg at h
      have hnum : (0 : ℚ) ≤ ((min (time_to_minutes ea) (time_to_minutes eb) -
          max (time_to_minutes sa) (time_to_minutes sb) : ℤ) : ℚ) := by
        exact_mod_cast Int.sub_nonneg.mpr h.le
      have hden : (0 : ℚ) < ((time_to_minutes eb - time_to_minutes sb : ℤ) : ℚ) := by
        exact_mod_cast hpos
      constructor
      · exact div_nonneg hnum hden.le
      · rw [div_le_one hden]
        have h1 : min (time_to_minutes ea) (time_to_minutes eb) ≤ time_to_minutes eb :=
          min_le_right _ _
        have h2 : time_to_minutes sb ≤ max (time_to_minutes sa) (time_to_minutes sb) :=
          le_max_right _ _
        exact_mod_cast Int.sub_le_sub h1 h2
  refine ⟨key, ?_⟩
  intro sched pw dw hpw hdw
  have hp := key sched.startTime sched.endTime pw.1 pw.2 hpw
  have hd := key sched.startTime sched.endTime dw.1 dw.2 hdw
  constructor
  · exact le_min hp.1 hd.1
  · exact (min_le_left _ _).trans hp.2

/-- Witness for claim C10 at concrete windows. -/
theorem claim_C10_scores_in_unit_interval_witness :
    (0 ≤ calculate_window_overlap ⟨9, 0⟩ ⟨10, 0⟩ ⟨9, 30⟩ ⟨10, 30⟩ ∧
      calculate_window_overlap ⟨9, 0⟩ ⟨10, 0⟩ ⟨9, 30⟩ ⟨10, 30⟩ ≤ 1) ∧
    (0 ≤ calculate_time_compatibility ⟨⟨8, 0⟩, ⟨18, 0⟩⟩ (⟨9, 0⟩, ⟨10, 0⟩) (⟨10, 0⟩, ⟨12, 0⟩) ∧
      calculate_time_compatibility ⟨⟨8, 0⟩, ⟨18, 0⟩⟩ (⟨9, 0⟩, ⟨10, 0⟩) (⟨10, 0⟩, ⟨12, 0⟩) ≤ 1) :=
  ⟨claim_C10_scores_in_unit_interval.1 ⟨9, 0⟩ ⟨10, 0⟩ ⟨9, 30⟩ ⟨10, 30⟩ (by decide),
    claim_C10_scores_in_unit_interval.2 ⟨⟨8, 0⟩, ⟨18, 0⟩⟩ (⟨9, 0⟩, ⟨10, 0⟩) (⟨10, 0⟩, ⟨12, 0⟩)
      (by decide) (by decide)⟩

lemma minBy_dist (f : Point → ℚ) (b : Point) (l : List Point) :
    f (minBy f b l) = (l.map f).foldl min (f b) := by
  induction l generalizing b with
  | nil => rfl
  | cons q rest ih =>
    rw [List.map_cons, List.foldl_cons]
    show f (minBy f (if f q < f b then q else b) rest) = _
    rw [ih]
    congr 1
    split_ifs with h
    · exact (min_eq_right h.le).symm
    · exact (min_eq_left (not_lt.mp h)).symm

lemma minBy_first (f : Point → ℚ) (b : Point) (l : List Point) :
    (b :: l).find? (fun q => decide (f q = (l.map f).foldl min (f b))) =
      some (minBy f b l) := by
  induction l generalizing b with
  | nil =>
    simp [minBy, List.find?]
  | cons q rest ih =>
    rw [List.map_cons, List.foldl_cons]
    by_cases h : f q < f b
    · rw [min_eq_right h.le]
      have hm_le : (rest.map f).foldl min (f q) ≤ f q := foldl_min_le_init _ _
      have hb_ne : f b ≠ (rest.map f).foldl min (f q) := by
        intro heq
        have hle : f b ≤ f q := heq ▸ hm_le
        exact absurd hle (not_le.mpr h)
      rw [find?_cons_neg (decide_eq_false hb_ne)]
      show _ = some (minBy f (if f q < f b then q else b) rest)
      rw [if_pos h]
      exact ih q
    · have hbq : f b ≤ f q := not_lt.mp h
      rw [min_eq_left hbq]
      have hm_le : (rest.map f).foldl min (f b) ≤ f b := foldl_min_le_init _ _
      have hrest := ih b
      show _ = some (minBy f (if f q < f b then q else b) rest)
      rw [if_neg h]
      by_cases hb : f b = (rest.map f).foldl min (f b)
      · rw [find?_cons_pos (decide_eq_true hb)]
        rw [find?_cons_pos (decide_eq_true hb)] at hrest
        exact hrest
      · have hq_ne : f q ≠ (rest.map f).foldl min (f b) := by
          intro heq
          have hfb_le : f b ≤ (rest.map f).foldl min (f b) := heq ▸ hbq
          exact hb (le_antisymm hfb_le hm_le)
        rw [find?_cons_neg (decide_eq_false hb), find?_cons_neg (decide_eq_false hq_ne)]
        rw [find?_cons_neg (decide_eq_false hb)] at hrest
        exact hrest

/-- Claim C4: route deviation is the sum of the minimal route-point distances
to pickup and to delivery, the nearest point is the first one attaining that
minimum, and time is distance / 30 × 60. -/
theorem claim_C4_route_deviation (geo : Geo) (p : Point) (rest : List Point)
    (pickup delivery : Point) :
    (calculate_route_deviation geo (p :: rest) pickup delivery =
      some { distance := minDistTo geo pickup p rest + minDistTo geo delivery p rest,
             time := (minDistTo geo pickup p rest + minDistTo geo delivery p rest) / 30 * 60 })
    ∧ (p :: rest).find? (fun q => decide (geo q pickup = minDistTo geo pickup p rest)) =
        some (nearestPoint geo pickup p rest)
    ∧ (p :: rest).find? (fun q => decide (geo q delivery = minDistTo geo delivery p rest)) =
        some (nearestPoint geo delivery p rest) := by
  have h1 : geo (nearestPoint geo pickup p rest) pickup = minDistTo geo pickup p rest :=
    minBy_dist (fun q => geo q pickup) p rest
  have h2 : geo (nearestPoint geo delivery p rest) delivery = minDistTo geo delivery p rest :=
    minBy_dist (fun q => geo q delivery) p rest
  refine ⟨?_, ?_, ?_⟩
  · simp only [calculate_route_deviation]
    rw [h1, h2]
  · exact minBy_first (fun q => geo q pickup) p rest
  · exact minBy_first (fun q => geo q delivery) p rest

lemma calculate_compensation_eq (geo : Geo) (package : Package) (carrier : Carrier) :
    calculate_compensation geo package carrier =
      (calculate_route_deviation geo carrier.routeCoordinates
        package.pickupCoordinates package.deliveryCoordinates).map
        (fun deviation => round2 (50 + deviation.distance * 10 +
          package.dimensions.weight * 5 +
          (if package.urgency = some "high" then 100
            else if package.urgency = some "medium" then 50
            else 0))) := by
  simp only [calculate_compensation]
  cases calculate_route_deviation geo carrier.routeCoordinates
      package.pickupCoordinates package.deliveryCoordinates with
  | none => rfl
  | some rd => rfl

/-- Claim C1: compensation is 50 + deviation distance × 10 + weight × 5 +
the urgency premium, rounded to two decimals; at weight 10, urgency high and
deviation distance 5 it is exactly 250.00. -/
theorem claim_C1_compensation_formula (geo : Geo) (package : Package) (carrier : Carrier)
    (p : Point) (rest : List Point) (hroute : carrier.routeCoordinates = p :: rest) :
    ∃ rd, calculate_route_deviation geo carrier.routeCoordinates
        package.pickupCoordinates package.deliveryCoordinates = some rd ∧
      calculate_compensation geo package carrier =
        some (round2 (50 + rd.distance * 10 + package.dimensions.weight * 5 +
          (if package.urgency = some "high" then 100
            else if package.urgency = some "medium" then 50
            else 0))) ∧
      (package.dimensions.weight = 10 → package.urgency = some "high" →
        rd.distance = 5 → calculate_compensation geo package carrier = some 250) := by
  obtain ⟨rd, hrd⟩ : ∃ rd, calculate_route_deviation geo carrier.routeCoordinates
      package.pickupCoordinates package.deliveryCoordinates = some rd := by
    rw [hroute]
    exact ⟨_, rfl⟩
  refine ⟨rd, hrd, ?_, ?_⟩
  · rw [calculate_compensation_eq, hrd]
    rfl
  · intro hw hu hd
    rw [calculate_compensation_eq, hrd]
    simp only [Option.map_some']
    rw [hw, hu, hd]
    norm_num [round2, round_eq]

/-- Witness for claim C1: a concrete package (weight 10, urgency high) and
carrier with deviation distance 5 yield compensation exactly 250. -/
theorem claim_C1_compensation_formula_witness :
    calculate_compensation geoC1 packageC1 carrierC1 = some 250 := by
  obtain ⟨rd, hrd, hform, hinst⟩ :=
    claim_C1_compensation_formula geoC1 packageC1 carrierC1 ((0 : ℚ), (0 : ℚ)) [] rfl
  refine hinst rfl rfl ?_
  have hval : (some rd : Option RouteDeviation) =
      some { distance := geoC1 ((0 : ℚ), (0 : ℚ)) ((0 : ℚ), (0 : ℚ)) +
               geoC1 ((0 : ℚ), (0 : ℚ)) ((1 : ℚ), (1 : ℚ)),
             time := (geoC1 ((0 : ℚ), (0 : ℚ)) ((0 : ℚ), (0 : ℚ)) +
               geoC1 ((0 : ℚ), (0 : ℚ)) ((1 : ℚ), (1 : ℚ))) / 30 * 60 } := hrd.symm
  have hdist : rd.distance = geoC1 ((0 : ℚ), (0 : ℚ)) ((0 : ℚ), (0 : ℚ)) +
      geoC1 ((0 : ℚ), (0 : ℚ)) ((1 : ℚ), (1 : ℚ)) := by
    rw [Option.some.inj hval]
  rw [hdist]
  simp [geoC1]

/-- Claim C3: size compatibility is exactly 0 when any axis is exceeded;
otherwise it is max(0.1, 1 − |0.3 − max(volume ratio, weight ratio)|),
hence at least 0.1 for every dimensionally fitting package. -/
theorem claim_C3_size_compatibility (vc : VehicleCapacity) (pd : Dimensions)
    (hl : 0 < vc.length) (hw : 0 < vc.width) (hh : 0 < vc.height)
    (hwl : 0 < vc.weightLimit) :
    ((vc.length < pd.length ∨ vc.width < pd.width ∨ vc.height < pd.height ∨
        vc.weightLimit < pd.weight) →
      evaluate_size_compatibility vc pd = 0)
    ∧ (pd.length ≤ vc.length → pd.width ≤ vc.width → pd.height ≤ vc.height →
        pd.weight ≤ vc.weightLimit →
      evaluate_size_compatibility vc pd =
        max 0.1 (1 - |(0.3 : ℚ) -
          max ((pd.length * pd.width * pd.height) / (vc.length * vc.width * vc.height))
            (pd.weight / vc.weightLimit)|) ∧
      0.1 ≤ evaluate_size_compatibility vc pd) := by
  constructor
  · intro hexceed
    simp only [evaluate_size_compatibility]
    rw [if_neg]
    rintro ⟨h1, h2, h3, h4⟩
    rcases hexceed with h | h | h | h
    · exact absurd h1 (not_le.mpr h)
    · exact absurd h2 (not_le.mpr h)
    · exact absurd h3 (not_le.mpr h)
    · exact absurd h4 (not_le.mpr h)
  · intro h1 h2 h3 h4
    constructor
    · simp only [evaluate_size_compatibility]
      rw [if_pos ⟨h1, h2, h3, h4⟩]
    · simp only [evaluate_size_compatibility]
      rw [if_pos ⟨h1, h2, h3, h4⟩]
      exact le_max_left _ _

/-- Witness for claim C3: a fitting package scores at least 0.1. -/
theorem claim_C3_size_compatibility_witness :
    (0.1 : ℚ) ≤ evaluate_size_compatibility
      { length := 2, width := 2, height := 2, weightLimit := 20 }
      { length := 1, width := 1, height := 1, weight := 10 } :=
  ((claim_C3_size_compatibility
      { length := 2, width := 2, height := 2, weightLimit := 20 }
      { length := 1, width := 1, height := 1, weight := 10 }
      (by decide) (by decide) (by decide) (by decide)).2
    (by decide) (by decide) (by decide) (by decide)).2

/-- Claim C7: the feature vector has length exactly 7 and lists, in order,
deviation distance, deviation time, time compatibility, size compatibility,
rating (default 0), on-time rate (default 0) and the completed-delivery
count (default empty list). -/
theorem claim_C7_feature_vector (geo : Geo) (package : Package) (carrier : Carrier)
    (p : Point) (rest : List Point) (hroute : carrier.routeCoordinates = p :: rest) :
    ∃ v rd, extract_features geo package carrier = some v ∧
      calculate_route_deviation geo carrier.routeCoordinates
        package.pickupCoordinates package.deliveryCoordinates = some rd ∧
      v.length = 7 ∧
      v = [rd.distance, rd.time,
        calculate_time_compatibility carrier.schedule package.pickupWindow
          package.deliveryWindow,
        evaluate_size_compatibility carrier.vehicleCapacity package.dimensions,
        carrier.rating.getD 0, carrier.onTimeRate.getD 0,
        ((carrier.completedDeliveries.getD []).length : ℚ)] := by
  obtain ⟨rd, hrd⟩ : ∃ rd, calculate_route_deviation geo carrier.routeCoordinates
      package.pickupCoordinates package.deliveryCoordinates = some rd := by
    rw [hroute]
    exact ⟨_, rfl⟩
  refine ⟨[rd.distance, rd.time,
    calculate_time_compatibility carrier.schedule package.pickupWindow package.deliveryWindow,
    evaluate_size_compatibility carrier.vehicleCapacity package.dimensions,
    carrier.rating.getD 0, carrier.onTimeRate.getD 0,
    ((carrier.completedDeliveries.getD []).length : ℚ)], rd, ?_, hrd, rfl, rfl⟩
  simp only [extract_features, hrd]

/-- Witness for claim C7 at a concrete package and carrier. -/
theorem claim_C7_feature_vector_witness :
    ∃ v, extract_features geoC1 packageC1 carrierC1 = some v ∧ v.length = 7 := by
  obtain ⟨v, rd, hv, hrd, hlen, hshape⟩ :=
    claim_C7_feature_vector geoC1 packageC1 carrierC1 ((0 : ℚ), (0 : ℚ)) [] rfl
  exact ⟨v, hv, hlen⟩

/-- Claim C9: compensation depends only on the package and the deviation
distance — two carriers with equal deviation distance get equal
compensation, whatever their other fields. -/
theorem claim_C9_compensation_noninterference (geo : Geo) (package : Package)
    (c1 c2 : Carrier)
    (h : (calculate_route_deviation geo c1.routeCoordinates
          package.pickupCoordinates package.deliveryCoordinates).map
            RouteDeviation.distance =
        (calculate_route_deviation geo c2.routeCoordinates
          package.pickupCoordinates package.deliveryCoordinates).map
            RouteDeviation.distance) :
    calculate_compensation geo package c1 = calculate_compensation geo package c2 := by
  rw [calculate_compensation_eq, calculate_compensation_eq]
  cases hd1 : calculate_route_deviation geo c1.routeCoordinates
      package.pickupCoordinates package.deliveryCoordinates with
  | none =>
    cases hd2 : calculate_route_deviation geo c2.routeCoordinates
        package.pickupCoordinates package.deliveryCoordinates with
    | none => rfl
    | some rd2 =>
      rw [hd1, hd2] at h
      simp at h
  | some rd1 =>
    cases hd2 : calculate_route_deviation geo c2.routeCoordinates
        package.pickupCoordinates package.deliveryCoordinates with
    | none =>
      rw [hd1, hd2] at h
      simp at h
    | some rd2 =>
      rw [hd1, hd2] at h
      simp only [Option.map_some', Option.some.injEq] at h ⊢
      rw [h]

/-- Witness for claim C9: two carriers with the same route but different
rating, on-time rate, schedule and capacity get the same compensation. -/
theorem claim_C9_compensation_noninterference_witness :
    calculate_compensation geoC1 packageC1 carrierC1 =
      calculate_compensation geoC1 packageC1 carrierC9 :=
  claim_C9_compensation_noninterference geoC1 packageC1 carrierC1 carrierC9 rfl

lemma except_bind_ok {α β : Type} {x : Except String α} {f : α → Except String β} {b : β}
    (h : x >>= f = Except.ok b) : ∃ a, x = Except.ok a ∧ f a = Except.ok b := by
  cases x with
  | ok a => exact ⟨a, rfl, h⟩
  | error e =>
    exact absurd h (by simp [Bind.bind, Except.bind])

lemma predict_body_ok {geo : Geo} {env : PredictEnv} {j : Json}
    (h : predict_body geo env = Except.ok j) : isMatchResultJson j := by
  rw [predict_body] at h
  obtain ⟨package, hp, h⟩ := except_bind_ok h
  obtain ⟨carrier, hc, h⟩ := except_bind_ok h
  obtain ⟨model, hm, h⟩ := except_bind_ok h
  obtain ⟨features, hf, h⟩ := except_bind_ok h
  obtain ⟨match_score, hs, h⟩ := except_bind_ok h
  obtain ⟨compensation, hcomp, h⟩ := except_bind_ok h
  obtain ⟨route_deviation, hrd, h⟩ := except_bind_ok h
  refine ⟨carrier.id, package.id, match_score, compensation, route_deviation, ?_⟩
  exact (Except.ok.inj h).symm

lemma train_body_ok {geo : Geo} {env : TrainEnv} {j : Json}
    (h : train_body geo env = Except.ok j) : j = trainSuccessJson := by
  rw [train_body] at h
  obtain ⟨training_data, hd, h⟩ := except_bind_ok h
  obtain ⟨X, hX, h⟩ := except_bind_ok h
  obtain ⟨model, hm, h⟩ := except_bind_ok h
  obtain ⟨u, hu, h⟩ := except_bind_ok h
  exact (Except.ok.inj h).symm

/-- Claim C2: whatever the outcomes of the fallible steps (JSON parsing,
model load, empty route, model invocation, training-data load, fit, save),
`predict_match` returns either a MatchResult-shaped JSON object or an
error-shaped one, and `train_model` returns either the success object or an
error-shaped one; no failure escapes. -/
theorem claim_C2_error_boundary (geo : Geo) (penv : PredictEnv) (tenv : TrainEnv) :
    (isMatchResultJson (predict_match geo penv) ∨ isErrorJson (predict_match geo penv))
    ∧ (train_model geo tenv = trainSuccessJson ∨ isErrorJson (train_model geo tenv)) := by
  constructor
  · cases hb : predict_body geo penv with
    | ok j =>
      left
      have hj : predict_match geo penv = j := by
        simp [predict_match, hb]
      rw [hj]
      exact predict_body_ok hb
    | error e =>
      right
      exact ⟨e, by simp [predict_match, hb]⟩
  · cases hb : train_body geo tenv with
    | ok j =>
      left
      have hj : train_model geo tenv = j := by
        simp [train_model, hb]
      rw [hj]
      exact train_body_ok hb
    | error e =>
      right
      exact ⟨e, by simp [train_model, hb]⟩
